import Mathlib

/-!
Verification of the restic-web-api server (src/main.rs, src/restore.rs,
src/stats.rs) against its natural-language specification.

The repository is a small actix-web HTTP API that shells out to the
external restic binary. Each operation (stats, snapshots, delete,
restore) writes the repository password to a NamedTempFile, runs
restic with a fixed argument list, and classifies the captured output.

Shallow embedding conventions:
- bytes are lists of naturals (each below 256 in well-formed data);
- the filesystem is an association list from paths to contents;
- the nondeterminism of the operating system (which fresh path the
  temp-file library picks, whether file creation or the write fails,
  what the spawned subprocess returns) is resolved by an explicit
  Env record, so each Rust function becomes a pure Lean function
  from Env and an initial filesystem to a trace: its result, the
  final filesystem, and the list of subprocess invocation attempts
  (each with the argument vector and the filesystem at spawn time);
- NamedTempFile drop semantics (the tempfile crate removes the file
  when the handle goes out of scope, on every exit path) is made
  explicit: every return path of a modelled function removes the
  credential path from the filesystem;
- the Display text of underlying io / decode / parse errors that Rust
  interpolates into its format strings is abstracted to a fixed
  description per error site; the distinguishing prefix of each
  message is kept verbatim from the source format strings.
-/

namespace ResticApi

/-- Byte strings, as lists of naturals. -/
abbrev Bytes := List Nat

/-! ## UTF-8 encoding and decoding

Models of the Rust standard library functions used by the source:
str::as_bytes (encoding), String::from_utf8 (strict decoding, used on
stdout at main.rs:105) and String::from_utf8_lossy (replacement-character
decoding, used on stderr at main.rs:99). -/

/-- UTF-8 encoding of a single scalar value, as in the Rust standard
library (1 to 4 bytes). -/
def utf8EncodeChar (c : Char) : Bytes :=
  let n := c.toNat
  if n < 0x80 then [n]
  else if n < 0x800 then [0xC0 + n / 0x40, 0x80 + n % 0x40]
  else if n < 0x10000 then
    [0xE0 + n / 0x1000, 0x80 + (n / 0x40) % 0x40, 0x80 + n % 0x40]
  else
    [0xF0 + n / 0x40000, 0x80 + (n / 0x1000) % 0x40,
     0x80 + (n / 0x40) % 0x40, 0x80 + n % 0x40]

/-- Model of str::as_bytes: the UTF-8 encoding of a string. -/
def strBytes (s : String) : Bytes :=
  s.data.foldr (fun c acc => utf8EncodeChar c ++ acc) []

/-- Whether a byte is a UTF-8 continuation byte (0x80 to 0xBF). -/
def isCont (b : Nat) : Bool := 0x80 ≤ b && b < 0xC0

/-- Strict UTF-8 decoding into a list of characters; none on any
invalid sequence (overlong forms, surrogates, out-of-range scalar
values, truncated sequences). Models the validation performed by
String::from_utf8. -/
def utf8DecodeAux : Bytes → Option (List Char)
  | [] => some []
  | b :: rest =>
    if b < 0x80 then
      (utf8DecodeAux rest).map (fun cs => Char.ofNat b :: cs)
    else if b < 0xC2 then
      none
    else if b < 0xE0 then
      match rest with
      | b2 :: rest2 =>
        if isCont b2 then
          (utf8DecodeAux rest2).map
            (fun cs => Char.ofNat ((b - 0xC0) * 0x40 + (b2 - 0x80)) :: cs)
        else none
      | [] => none
    else if b < 0xF0 then
      match rest with
      | b2 :: b3 :: rest3 =>
        let lo2 := if b = 0xE0 then 0xA0 else 0x80
        let hi2 := if b = 0xED then 0xA0 else 0xC0
        if (lo2 ≤ b2 && b2 < hi2) && isCont b3 then
          (utf8DecodeAux rest3).map
            (fun cs =>
              Char.ofNat ((b - 0xE0) * 0x1000 + (b2 - 0x80) * 0x40 + (b3 - 0x80)) :: cs)
        else none
      | _ => none
    else if b < 0xF5 then
      match rest with
      | b2 :: b3 :: b4 :: rest4 =>
        let lo2 := if b = 0xF0 then 0x90 else 0x80
        let hi2 := if b = 0xF4 then 0x90 else 0xC0
        if ((lo2 ≤ b2 && b2 < hi2) && isCont b3) && isCont b4 then
          (utf8DecodeAux rest4).map
            (fun cs =>
              Char.ofNat ((b - 0xF0) * 0x40000 + (b2 - 0x80) * 0x1000
                + (b3 - 0x80) * 0x40 + (b4 - 0x80)) :: cs)
        else none
      | _ => none
    else none

/-- Model of String::from_utf8: strict decoding of bytes to a string. -/
def utf8Decode (bs : Bytes) : Option String :=
  (utf8DecodeAux bs).map String.mk

/-- The Unicode replacement character U+FFFD. -/
def replacementChar : Char := Char.ofNat 0xFFFD

/-- Lossy UTF-8 decoding: each invalid subsequence becomes U+FFFD and
decoding continues. Models String::from_utf8_lossy (which is total: it
never fails, whatever the input bytes). The fuel argument only bounds
the recursion; every step consumes at least one byte, so fuel equal to
the byte count is always sufficient. -/
def utf8LossyAux : Nat → Bytes → List Char
  | 0, _ => []
  | _, [] => []
  | fuel + 1, b :: rest =>
    if b < 0x80 then
      Char.ofNat b :: utf8LossyAux fuel rest
    else if b < 0xC2 then
      replacementChar :: utf8LossyAux fuel rest
    else if b < 0xE0 then
      match rest with
      | b2 :: rest2 =>
        if isCont b2 then
          Char.ofNat ((b - 0xC0) * 0x40 + (b2 - 0x80)) :: utf8LossyAux fuel rest2
        else replacementChar :: utf8LossyAux fuel (b2 :: rest2)
      | [] => [replacementChar]
    else if b < 0xF0 then
      match rest with
      | b2 :: rest2 =>
        let lo2 := if b = 0xE0 then 0xA0 else 0x80
        let hi2 := if b = 0xED then 0xA0 else 0xC0
        if lo2 ≤ b2 && b2 < hi2 then
          match rest2 with
          | b3 :: rest3 =>
            if isCont b3 then
              Char.ofNat ((b - 0xE0) * 0x1000 + (b2 - 0x80) * 0x40 + (b3 - 0x80))
                :: utf8LossyAux fuel rest3
            else replacementChar :: utf8LossyAux fuel (b3 :: rest3)
          | [] => [replacementChar]
        else replacementChar :: utf8LossyAux fuel (b2 :: rest2)
      | [] => [replacementChar]
    else if b < 0xF5 then
      match rest with
      | b2 :: rest2 =>
        let lo2 := if b = 0xF0 then 0x90 else 0x80
        let hi2 := if b = 0xF4 then 0x90 else 0xC0
        if lo2 ≤ b2 && b2 < hi2 then
          match rest2 with
          | b3 :: rest3 =>
            if isCont b3 then
              match rest3 with
              | b4 :: rest4 =>
                if isCont b4 then
                  Char.ofNat ((b - 0xF0) * 0x40000 + (b2 - 0x80) * 0x1000
                    + (b3 - 0x80) * 0x40 + (b4 - 0x80)) :: utf8LossyAux fuel rest4
                else replacementChar :: utf8LossyAux fuel (b4 :: rest4)
              | [] => [replacementChar]
            else replacementChar :: utf8LossyAux fuel (b3 :: rest3)
          | [] => [replacementChar]
        else replacementChar :: utf8LossyAux fuel (b2 :: rest2)
      | [] => [replacementChar]
    else replacementChar :: utf8LossyAux fuel rest

/-- Model of String::from_utf8_lossy: a total function from arbitrary
bytes to a string. -/
def utf8Lossy (bs : Bytes) : String := String.mk (utf8LossyAux bs.length bs)

/-! ## JSON values and parsing

Model of serde_json: from_str parses a string into a generic Value
(main.rs:107). Numbers are kept as their validated lexeme; the exact
numeric representation serde chooses (i64 / u64 / f64) is irrelevant to
every property proved here. -/

/-- Generic JSON value, modelling serde_json::Value. -/
inductive Json where
  | null
  | bool (b : Bool)
  | num (lexeme : String)
  | str (s : String)
  | arr (elems : List Json)
  | obj (fields : List (String × Json))

/-- JSON insignificant whitespace. -/
def isJsonWs (c : Char) : Bool := c = ' ' || c = '\t' || c = '\n' || c = '\r'

/-- Drop leading JSON whitespace. -/
def skipWs (cs : List Char) : List Char := cs.dropWhile isJsonWs

/-- Value of one hexadecimal digit, by character code: digits 48-57,
lowercase 97-102, uppercase 65-70. -/
def hexDigit (c : Char) : Option Nat :=
  let n := c.toNat
  if 48 ≤ n && n ≤ 57 then some (n - 48)
  else if 97 ≤ n && n ≤ 102 then some (n - 87)
  else if 65 ≤ n && n ≤ 70 then some (n - 55)
  else none

/-- Value of a four-hex-digit escape. -/
def hex4 (h1 h2 h3 h4 : Char) : Option Nat :=
  match hexDigit h1, hexDigit h2, hexDigit h3, hexDigit h4 with
  | some a, some b, some c, some d =>
    some (a * 4096 + b * 256 + c * 16 + d)
  | _, _, _, _ => none

/-- JSON string-literal body parser (the opening quote already
consumed): returns the decoded characters and the remaining input.
Handles the simple escapes, unicode escapes and surrogate pairs;
rejects unescaped control characters and lone surrogates, as
serde_json does. -/
def parseStringAux : List Char → List Char → Option (List Char × List Char)
  | [], _ => none
  | '"' :: rest, acc => some (acc.reverse, rest)
  | '\\' :: 'u' :: h1 :: h2 :: h3 :: h4 :: rest, acc =>
    match hex4 h1 h2 h3 h4 with
    | none => none
    | some n =>
      if n < 0xD800 || 0xE000 ≤ n then
        parseStringAux rest (Char.ofNat n :: acc)
      else if n < 0xDC00 then
        match rest with
        | '\\' :: 'u' :: h5 :: h6 :: h7 :: h8 :: rest2 =>
          match hex4 h5 h6 h7 h8 with
          | none => none
          | some m =>
            if 0xDC00 ≤ m && m < 0xE000 then
              parseStringAux rest2
                (Char.ofNat (0x10000 + (n - 0xD800) * 0x400 + (m - 0xDC00)) :: acc)
            else none
        | _ => none
      else none
  | '\\' :: e :: rest, acc =>
    if e = '"' then parseStringAux rest ('"' :: acc)
    else if e = '\\' then parseStringAux rest ('\\' :: acc)
    else if e = '/' then parseStringAux rest ('/' :: acc)
    else if e = 'b' then parseStringAux rest (Char.ofNat 0x08 :: acc)
    else if e = 'f' then parseStringAux rest (Char.ofNat 0x0C :: acc)
    else if e = 'n' then parseStringAux rest ('\n' :: acc)
    else if e = 'r' then parseStringAux rest ('\r' :: acc)
    else if e = 't' then parseStringAux rest ('\t' :: acc)
    else none
  | c :: rest, acc =>
    if c.toNat < 0x20 then none else parseStringAux rest (c :: acc)

/-- Optional fraction part of a JSON number. -/
def parseFracPart (cs : List Char) : Option (List Char × List Char) :=
  match cs with
  | '.' :: t =>
    let ds := t.takeWhile Char.isDigit
    if ds.isEmpty then none else some ('.' :: ds, t.dropWhile Char.isDigit)
  | _ => some ([], cs)

/-- Optional exponent part of a JSON number. -/
def parseExpPart (cs : List Char) : Option (List Char × List Char) :=
  match cs with
  | e :: rest =>
    if e = 'e' || e = 'E' then
      let sg : List Char × List Char :=
        match rest with
        | '+' :: t => (['+'], t)
        | '-' :: t => (['-'], t)
        | _ => ([], rest)
      let ds := sg.2.takeWhile Char.isDigit
      if ds.isEmpty then none
      else some (e :: (sg.1 ++ ds), sg.2.dropWhile Char.isDigit)
    else some ([], cs)
  | [] => some ([], [])

/-- JSON number parser: an optional minus sign, an integer part with
no leading zero, optional fraction and exponent. Returns the lexeme. -/
def parseNumber (cs : List Char) : Option (String × List Char) :=
  let sign : List Char × List Char :=
    match cs with
    | '-' :: t => (['-'], t)
    | _ => ([], cs)
  match sign.2 with
  | [] => none
  | c :: _ =>
    if !c.isDigit then none
    else
      let ds := sign.2.takeWhile Char.isDigit
      let r1 := sign.2.dropWhile Char.isDigit
      if 1 < ds.length && ds.head? = some '0' then none
      else
        match parseFracPart r1 with
        | none => none
        | some (fp, r2) =>
          match parseExpPart r2 with
          | none => none
          | some (ep, r3) => some (String.mk (sign.1 ++ ds ++ fp ++ ep), r3)

mutual

/-- Fueled JSON value parser: parses one value from the input and
returns it with the remaining input. -/
def parseValue : Nat → List Char → Option (Json × List Char)
  | 0, _ => none
  | fuel + 1, cs =>
    match skipWs cs with
    | [] => none
    | c :: rest =>
      if c = 'n' then
        match rest with
        | 'u' :: 'l' :: 'l' :: r => some (.null, r)
        | _ => none
      else if c = 't' then
        match rest with
        | 'r' :: 'u' :: 'e' :: r => some (.bool true, r)
        | _ => none
      else if c = 'f' then
        match rest with
        | 'a' :: 'l' :: 's' :: 'e' :: r => some (.bool false, r)
        | _ => none
      else if c = '"' then
        (parseStringAux rest []).map (fun p => (.str (String.mk p.1), p.2))
      else if c = '[' then
        match skipWs rest with
        | ']' :: r => some (.arr [], r)
        | cs2 => (parseElems fuel cs2).map (fun p => (.arr p.1, p.2))
      else if c = '\x7b' then
        match skipWs rest with
        | '\x7d' :: r => some (.obj [], r)
        | cs2 => (parseFields fuel cs2).map (fun p => (.obj p.1, p.2))
      else
        (parseNumber (c :: rest)).map (fun p => (.num p.1, p.2))

/-- Fueled parser for the elements of a non-empty JSON array, up to and
including the closing bracket. -/
def parseElems : Nat → List Char → Option (List Json × List Char)
  | 0, _ => none
  | fuel + 1, cs =>
    match parseValue fuel cs with
    | none => none
    | some (j, rest) =>
      match skipWs rest with
      | ',' :: rest2 => (parseElems fuel rest2).map (fun p => (j :: p.1, p.2))
      | ']' :: rest2 => some ([j], rest2)
      | _ => none

/-- Fueled parser for the members of a non-empty JSON object, up to and
including the closing brace. -/
def parseFields : Nat → List Char → Option (List (String × Json) × List Char)
  | 0, _ => none
  | fuel + 1, cs =>
    match skipWs cs with
    | '"' :: rest =>
      match parseStringAux rest [] with
      | none => none
      | some (key, rest2) =>
        match skipWs rest2 with
        | ':' :: rest3 =>
          match parseValue fuel rest3 with
          | none => none
          | some (j, rest4) =>
            match skipWs rest4 with
            | ',' :: rest5 =>
              (parseFields fuel rest5).map
                (fun p => ((String.mk key, j) :: p.1, p.2))
            | '\x7d' :: rest5 => some ([(String.mk key, j)], rest5)
            | _ => none
        | _ => none
    | _ => none

end

/-- Model of serde_json::from_str for generic values: parse one JSON
value and require only whitespace to remain. -/
def parseJson (s : String) : Option Json :=
  match parseValue (s.data.length + 1) s.data with
  | some (j, rest) => if (skipWs rest).isEmpty then some j else none
  | none => none

/-! ## Rust string trimming

Model of str::trim (restore.rs:57): removes leading and trailing
characters with the Unicode White_Space property. -/

/-- The Unicode White_Space property, as used by Rust
char::is_whitespace. -/
def isRustWhitespace (c : Char) : Bool :=
  let n := c.toNat
  (0x09 ≤ n && n ≤ 0x0D) || n = 0x20 || n = 0x85 || n = 0xA0 ||
  n = 0x1680 || (0x2000 ≤ n && n ≤ 0x200A) || n = 0x2028 || n = 0x2029 ||
  n = 0x202F || n = 0x205F || n = 0x3000

/-- Model of str::trim. -/
def rustTrim (s : String) : String :=
  String.mk (((s.data.dropWhile isRustWhitespace).reverse.dropWhile
    isRustWhitespace).reverse)

/-! ## Filesystem, environment and invocation model -/

/-- An abstract filesystem: a finite association of paths to byte
contents. Lookup finds the first binding for a path. -/
abbrev FileSystem := List (String × Bytes)

/-- Content of a path, if present. -/
def fsLookup (fs : FileSystem) (p : String) : Option Bytes :=
  (fs.find? (fun e => e.1 = p)).map (fun e => e.2)

/-- Remove a path. -/
def fsRemove (fs : FileSystem) (p : String) : FileSystem :=
  fs.filter (fun e => e.1 ≠ p)

/-- Create or overwrite a path with the given content. -/
def fsWrite (fs : FileSystem) (p : String) (content : Bytes) : FileSystem :=
  (p, content) :: fsRemove fs p

/-- Raw outcome of a completed subprocess, modelling std::process::Output:
whether status.success() held, and the captured stdout / stderr bytes. -/
structure InvocationResult where
  exitSuccess : Bool
  stdout : Bytes
  stderr : Bytes

/-- Resolution of the operating-system nondeterminism one restic call
depends on: the fresh path NamedTempFile::new picks, whether creation
and the password write succeed, and what Command::output returns for a
given argument vector (none models a spawn failure, the io::Error arm
of Command::output). -/
structure Env where
  tempPath : String
  tempCreateOk : Bool
  writeOk : Bool
  spawn : List String → Option InvocationResult

/-- One recorded subprocess invocation attempt: the full argument
vector (program name first) and the filesystem at spawn time. -/
abbrev Invocation := List String × FileSystem

/-- Trace of one modelled restic helper function: the Result value the
Rust function returns, the filesystem after the function (and the
NamedTempFile drop) finished, and the invocation attempts made. -/
structure ExecTrace (α : Type) where
  result : Except String α
  fs : FileSystem
  invocations : List Invocation

/-- Model of get_restic_stats (main.rs:76-109, duplicated at
stats.rs:9-42): create the password temp file, write the password
bytes, run restic stats --json, classify. Every return path removes
the temp file, as NamedTempFile drop does; the Display text of the
underlying errors interpolated by format! is abstracted to a fixed
description per site, keeping the format string itself verbatim. -/
def getResticStats (env : Env) (fs0 : FileSystem)
    (repoPath repoPassword : String) : ExecTrace Json :=
  if !env.tempCreateOk then
    ⟨.error ("Failed to create temp file for password: io error"), fs0, []⟩
  else
    let fs1 := fsWrite fs0 env.tempPath []
    if !env.writeOk then
      ⟨.error ("Failed to write password to temp file: io error"),
       fsRemove fs1 env.tempPath, []⟩
    else
      let fs2 := fsWrite fs1 env.tempPath (strBytes repoPassword)
      let argv := ["restic", "-r", repoPath, "--password-file", env.tempPath,
                   "stats", "--json"]
      match env.spawn argv with
      | none =>
        ⟨.error ("Failed to execute restic: io error"),
         fsRemove fs2 env.tempPath, [(argv, fs2)]⟩
      | some out =>
        if !out.exitSuccess then
          ⟨.error ("Restic error: " ++ utf8Lossy out.stderr),
           fsRemove fs2 env.tempPath, [(argv, fs2)]⟩
        else
          match utf8Decode out.stdout with
          | none =>
            ⟨.error ("Invalid UTF-8 sequence: invalid utf-8 data"),
             fsRemove fs2 env.tempPath, [(argv, fs2)]⟩
          | some stdout =>
            match parseJson stdout with
            | none =>
              ⟨.error ("Failed to parse JSON: invalid JSON text"),
               fsRemove fs2 env.tempPath, [(argv, fs2)]⟩
            | some json => ⟨.ok json, fsRemove fs2 env.tempPath, [(argv, fs2)]⟩

/-- Model of get_restic_snapshots (main.rs:112-143): identical to the
stats helper except for the subcommand. -/
def getResticSnapshots (env : Env) (fs0 : FileSystem)
    (repoPath repoPassword : String) : ExecTrace Json :=
  if !env.tempCreateOk then
    ⟨.error ("Failed to create temp file for password: io error"), fs0, []⟩
  else
    let fs1 := fsWrite fs0 env.tempPath []
    if !env.writeOk then
      ⟨.error ("Failed to write password to temp file: io error"),
       fsRemove fs1 env.tempPath, []⟩
    else
      let fs2 := fsWrite fs1 env.tempPath (strBytes repoPassword)
      let argv := ["restic", "-r", repoPath, "--password-file", env.tempPath,
                   "snapshots", "--json"]
      match env.spawn argv with
      | none =>
        ⟨.error ("Failed to execute restic: io error"),
         fsRemove fs2 env.tempPath, [(argv, fs2)]⟩
      | some out =>
        if !out.exitSuccess then
          ⟨.error ("Restic error: " ++ utf8Lossy out.stderr),
           fsRemove fs2 env.tempPath, [(argv, fs2)]⟩
        else
          match utf8Decode out.stdout with
          | none =>
            ⟨.error ("Invalid UTF-8 sequence: invalid utf-8 data"),
             fsRemove fs2 env.tempPath, [(argv, fs2)]⟩
          | some stdout =>
            match parseJson stdout with
            | none =>
              ⟨.error ("Failed to parse JSON: invalid JSON text"),
               fsRemove fs2 env.tempPath, [(argv, fs2)]⟩
            | some json => ⟨.ok json, fsRemove fs2 env.tempPath, [(argv, fs2)]⟩

/-- Model of delete_restic_snapshot (main.rs:146-179): restic forget
with the caller-supplied snapshot id and --prune; no JSON parsing of
stdout on success. -/
def deleteResticSnapshot (env : Env) (fs0 : FileSystem)
    (repoPath repoPassword snapshotId : String) : ExecTrace Unit :=
  if !env.tempCreateOk then
    ⟨.error ("Failed to create temp file for password: io error"), fs0, []⟩
  else
    let fs1 := fsWrite fs0 env.tempPath []
    if !env.writeOk then
      ⟨.error ("Failed to write password to temp file: io error"),
       fsRemove fs1 env.tempPath, []⟩
    else
      let fs2 := fsWrite fs1 env.tempPath (strBytes repoPassword)
      let argv := ["restic", "-r", repoPath, "--password-file", env.tempPath,
                   "forget", snapshotId, "--prune"]
      match env.spawn argv with
      | none =>
        ⟨.error ("Failed to execute restic: io error"),
         fsRemove fs2 env.tempPath, [(argv, fs2)]⟩
      | some out =>
        if !out.exitSuccess then
          ⟨.error ("Restic error: " ++ utf8Lossy out.stderr),
           fsRemove fs2 env.tempPath, [(argv, fs2)]⟩
        else ⟨.ok (), fsRemove fs2 env.tempPath, [(argv, fs2)]⟩

/-- Model of restore_restic_snapshot (restore.rs:17-47): restic restore
with the caller-supplied snapshot id and target directory; no JSON
parsing of stdout on success. -/
def restoreResticSnapshot (env : Env) (fs0 : FileSystem)
    (repoPath repoPassword snapshotId targetDir : String) : ExecTrace Unit :=
  if !env.tempCreateOk then
    ⟨.error ("Failed to create temp file for password: io error"), fs0, []⟩
  else
    let fs1 := fsWrite fs0 env.tempPath []
    if !env.writeOk then
      ⟨.error ("Failed to write password to temp file: io error"),
       fsRemove fs1 env.tempPath, []⟩
    else
      let fs2 := fsWrite fs1 env.tempPath (strBytes repoPassword)
      let argv := ["restic", "-r", repoPath, "--password-file", env.tempPath,
                   "restore", snapshotId, "--target", targetDir]
      match env.spawn argv with
      | none =>
        ⟨.error ("Failed to execute restic: io error"),
         fsRemove fs2 env.tempPath, [(argv, fs2)]⟩
      | some out =>
        if !out.exitSuccess then
          ⟨.error ("Restic error: " ++ utf8Lossy out.stderr),
           fsRemove fs2 env.tempPath, [(argv, fs2)]⟩
        else ⟨.ok (), fsRemove fs2 env.tempPath, [(argv, fs2)]⟩

/-! ## HTTP handlers

Models of the four actix-web endpoint handlers. Each handler first
acquires the shared tokio Mutex around the configuration
(data.config.lock().await), calls the matching restic helper while
holding the guard, converts the Result into an HTTP response, and
releases the guard when its scope ends. Besides the response and the
invocation attempts, each model records the ordered list of observable
events of the handler body, which makes the position of the guard
acquisition relative to validation and response construction provable. -/

/-- The repository part of the configuration (main.rs:24-28). -/
structure RepositoryConfig where
  path : String
  password : String

/-- An HTTP response: status code and JSON body. -/
structure HttpResponse where
  status : Nat
  body : Json

/-- Observable events of one handler execution, in program order. -/
inductive Event where
  | lockAcquire
  | invoke (argv : List String)
  | respond (status : Nat)
  | lockRelease

/-- Result of running one handler: the HTTP response, the subprocess
invocation attempts, and the ordered event list. -/
structure HandlerResult where
  response : HttpResponse
  invocations : List Invocation
  events : List Event

/-- Model of the stats endpoint handler (main.rs:183-190, duplicated
at stats.rs:46-53): lock, run get_restic_stats, map Ok to a 200 with
the parsed JSON body and Err to a 500 with an error object. -/
def stats (env : Env) (fs0 : FileSystem) (config : RepositoryConfig) :
    HandlerResult :=
  let t := getResticStats env fs0 config.path config.password
  match t.result with
  | .ok json =>
    ⟨⟨200, json⟩, t.invocations,
     Event.lockAcquire :: t.invocations.map (fun inv => Event.invoke inv.1)
       ++ [Event.respond 200, Event.lockRelease]⟩
  | .error err =>
    ⟨⟨500, Json.obj [("error", Json.str err)]⟩, t.invocations,
     Event.lockAcquire :: t.invocations.map (fun inv => Event.invoke inv.1)
       ++ [Event.respond 500, Event.lockRelease]⟩

/-- Model of the snapshots endpoint handler (main.rs:194-201). -/
def snapshots (env : Env) (fs0 : FileSystem) (config : RepositoryConfig) :
    HandlerResult :=
  let t := getResticSnapshots env fs0 config.path config.password
  match t.result with
  | .ok json =>
    ⟨⟨200, json⟩, t.invocations,
     Event.lockAcquire :: t.invocations.map (fun inv => Event.invoke inv.1)
       ++ [Event.respond 200, Event.lockRelease]⟩
  | .error err =>
    ⟨⟨500, Json.obj [("error", Json.str err)]⟩, t.invocations,
     Event.lockAcquire :: t.invocations.map (fun inv => Event.invoke inv.1)
       ++ [Event.respond 500, Event.lockRelease]⟩

/-- Model of the delete endpoint handler (main.rs:205-219): lock, run
delete_restic_snapshot with the path-captured id, map Ok to a 200
message object and Err to a 500 error object. -/
def deleteSnapshot (env : Env) (fs0 : FileSystem) (config : RepositoryConfig)
    (id : String) : HandlerResult :=
  let t := deleteResticSnapshot env fs0 config.path config.password id
  match t.result with
  | .ok _ =>
    ⟨⟨200, Json.obj [("message", Json.str ("Snapshot deleted successfully"))]⟩,
     t.invocations,
     Event.lockAcquire :: t.invocations.map (fun inv => Event.invoke inv.1)
       ++ [Event.respond 200, Event.lockRelease]⟩
  | .error err =>
    ⟨⟨500, Json.obj [("error", Json.str err)]⟩, t.invocations,
     Event.lockAcquire :: t.invocations.map (fun inv => Event.invoke inv.1)
       ++ [Event.respond 500, Event.lockRelease]⟩

/-- Request body of the restore endpoint (restore.rs:11-14). -/
structure RestoreRequest where
  snapshot_id : String
  target_dir : String

/-- Model of the restore endpoint handler (restore.rs:51-72). The
source acquires the configuration lock first (restore.rs:55), then
checks req.target_dir.trim().is_empty() (restore.rs:57) and answers
400 while still holding the guard; otherwise it runs
restore_restic_snapshot and maps the Result to 200 or 500. -/
def restoreSnapshot (env : Env) (fs0 : FileSystem) (config : RepositoryConfig)
    (req : RestoreRequest) : HandlerResult :=
  if (rustTrim req.target_dir).isEmpty then
    ⟨⟨400, Json.obj [("error", Json.str ("Target directory is required"))]⟩,
     [], [Event.lockAcquire, Event.respond 400, Event.lockRelease]⟩
  else
    let t := restoreResticSnapshot env fs0 config.path config.password
      req.snapshot_id req.target_dir
    match t.result with
    | .ok _ =>
      ⟨⟨200, Json.obj [("message", Json.str ("Snapshot restored successfully"))]⟩,
       t.invocations,
       Event.lockAcquire :: t.invocations.map (fun inv => Event.invoke inv.1)
         ++ [Event.respond 200, Event.lockRelease]⟩
    | .error err =>
      ⟨⟨500, Json.obj [("error", Json.str err)]⟩, t.invocations,
       Event.lockAcquire :: t.invocations.map (fun inv => Event.invoke inv.1)
         ++ [Event.respond 500, Event.lockRelease]⟩

/-! ## Repository session serialization

Interleaving model of the shared tokio::sync::Mutex around the
configuration (AppState.config, main.rs:38-40). Every handler runs the
same script while the server serves many concurrent requests: acquire
the guard (config.lock().await), start the restic invocation, finish
the invocation and classification, then drop the guard at scope end.
A task index identifies each concurrent request handler; the mutex can
only be acquired when no task holds it, which is exactly the semantics
of tokio Mutex lock. -/

/-- Control point of one request handler task. -/
inductive Phase where
  | idle
  | locked
  | invoking
  | classified
  | released
deriving DecidableEq

/-- Global state: which task (if any) owns the mutex, and every task's
control point. -/
structure SessionState where
  owner : Option Nat
  phase : Nat → Phase

/-- All tasks are at their entry point; the mutex is free. -/
def initialSession : SessionState :=
  ⟨none, fun _ => Phase.idle⟩

/-- Update one task's control point. -/
def setPhase (f : Nat → Phase) (i : Nat) (p : Phase) : Nat → Phase :=
  fun j => if j = i then p else f j

/-- Interleaving steps of the handler tasks. A task can acquire the
free mutex, then begin its tool invocation, then finish invocation and
classification, then release the mutex at handler scope end. -/
inductive SessionStep : SessionState → SessionState → Prop where
  | acquire (s : SessionState) (i : Nat) :
      s.phase i = Phase.idle → s.owner = none →
      SessionStep s ⟨some i, setPhase s.phase i Phase.locked⟩
  | beginInvoke (s : SessionState) (i : Nat) :
      s.phase i = Phase.locked →
      SessionStep s ⟨s.owner, setPhase s.phase i Phase.invoking⟩
  | endInvoke (s : SessionState) (i : Nat) :
      s.phase i = Phase.invoking →
      SessionStep s ⟨s.owner, setPhase s.phase i Phase.classified⟩
  | release (s : SessionState) (i : Nat) :
      s.phase i = Phase.classified →
      SessionStep s ⟨none, setPhase s.phase i Phase.released⟩

/-- States reachable from the initial state by interleaving steps. -/
inductive SessionReachable : SessionState → Prop where
  | init : SessionReachable initialSession
  | step {s t : SessionState} :
      SessionReachable s → SessionStep s t → SessionReachable t

/-- A task at one of these control points is between its guard
acquisition and its guard release. -/
def holdsGuard (p : Phase) : Prop :=
  p = Phase.locked ∨ p = Phase.invoking ∨ p = Phase.classified

/-- Mutex invariant: any task between acquisition and release is the
recorded owner of the mutex. -/
theorem sessionInvariant {s : SessionState} (h : SessionReachable s) :
    ∀ i, holdsGuard (s.phase i) → s.owner = some i := by
  induction h with
  | init =>
    intro i hi
    rcases hi with h1 | h1 | h1 <;> simp [initialSession] at h1
  | step hr hs ih =>
    cases hs with
    | acquire i hidle hown =>
      intro j hj
      simp only [setPhase] at hj
      by_cases hij : j = i
      · simp [hij]
      · rw [if_neg hij] at hj
        have h2 := ih j hj
        rw [hown] at h2
        exact Option.noConfusion h2
    | beginInvoke i hlocked =>
      intro j hj
      simp only [setPhase] at hj
      by_cases hij : j = i
      · rw [hij]
        exact ih i (Or.inl hlocked)
      · rw [if_neg hij] at hj
        exact ih j hj
    | endInvoke i hinv =>
      intro j hj
      simp only [setPhase] at hj
      by_cases hij : j = i
      · rw [hij]
        exact ih i (Or.inr (Or.inl hinv))
      · rw [if_neg hij] at hj
        exact ih j hj
    | release i hcls =>
      intro j hj
      simp only [setPhase] at hj
      by_cases hij : j = i
      · rw [if_pos hij] at hj
        rcases hj with h1 | h1 | h1 <;> exact Phase.noConfusion h1
      · rw [if_neg hij] at hj
        have h1 := ih j hj
        have h2 := ih i (Or.inr (Or.inr hcls))
        rw [h2] at h1
        exact absurd (Option.some.inj h1).symm hij

/-! ## Helper lemmas -/

/-- Removing a path makes it absent. -/
theorem fsLookup_fsRemove (fs : FileSystem) (p : String) :
    fsLookup (fsRemove fs p) p = none := by
  simp [fsLookup, fsRemove, List.find?_eq_none, List.mem_filter]

/-- Writing a path makes its content the written bytes. -/
theorem fsLookup_fsWrite (fs : FileSystem) (p : String) (c : Bytes) :
    fsLookup (fsWrite fs p c) p = some c := by
  simp [fsLookup, fsWrite, List.find?]

/-- Once the temp file is created and written, the stats helper makes
exactly one invocation attempt, with the stats argument vector and the
filesystem holding the written password. -/
theorem stats_invocations_eq (env : Env) (fs0 : FileSystem) (loc secret : String)
    (hc : env.tempCreateOk = true) (hw : env.writeOk = true) :
    (getResticStats env fs0 loc secret).invocations =
      [(["restic", "-r", loc, "--password-file", env.tempPath, "stats", "--json"],
        fsWrite (fsWrite fs0 env.tempPath []) env.tempPath (strBytes secret))] := by
  unfold getResticStats
  simp only [hc, hw, Bool.not_true]
  repeat' split
  all_goals simp_all

/-- Invocation attempt of the snapshots helper. -/
theorem snapshots_invocations_eq (env : Env) (fs0 : FileSystem) (loc secret : String)
    (hc : env.tempCreateOk = true) (hw : env.writeOk = true) :
    (getResticSnapshots env fs0 loc secret).invocations =
      [(["restic", "-r", loc, "--password-file", env.tempPath, "snapshots", "--json"],
        fsWrite (fsWrite fs0 env.tempPath []) env.tempPath (strBytes secret))] := by
  unfold getResticSnapshots
  simp only [hc, hw, Bool.not_true]
  repeat' split
  all_goals simp_all

/-- Invocation attempt of the delete helper. -/
theorem delete_invocations_eq (env : Env) (fs0 : FileSystem)
    (loc secret id : String)
    (hc : env.tempCreateOk = true) (hw : env.writeOk = true) :
    (deleteResticSnapshot env fs0 loc secret id).invocations =
      [(["restic", "-r", loc, "--password-file", env.tempPath, "forget", id, "--prune"],
        fsWrite (fsWrite fs0 env.tempPath []) env.tempPath (strBytes secret))] := by
  unfold deleteResticSnapshot
  simp only [hc, hw, Bool.not_true]
  repeat' split
  all_goals simp_all

/-- Invocation attempt of the restore helper. -/
theorem restore_invocations_eq (env : Env) (fs0 : FileSystem)
    (loc secret id target : String)
    (hc : env.tempCreateOk = true) (hw : env.writeOk = true) :
    (restoreResticSnapshot env fs0 loc secret id target).invocations =
      [(["restic", "-r", loc, "--password-file", env.tempPath, "restore", id,
         "--target", target],
        fsWrite (fsWrite fs0 env.tempPath []) env.tempPath (strBytes secret))] := by
  unfold restoreResticSnapshot
  simp only [hc, hw, Bool.not_true]
  repeat' split
  all_goals simp_all

/-! ## Claim theorems -/

/-- C1: for every secret string and every operation (stats, snapshots,
delete, restore), the temporary credential file created to hold the
secret no longer exists once the materializer scope ends, on every
exit path — whether the subprocess invocation succeeds, exits nonzero,
or the function returns early with an error. The universally
quantified Env covers every exit path: temp-file creation failure,
write failure, spawn failure, nonzero exit, decode or parse failure,
and success. -/
theorem tempfile_removed_on_every_path (env : Env) (fs0 : FileSystem)
    (loc secret id target : String)
    (hfresh : fsLookup fs0 env.tempPath = none) :
    fsLookup (getResticStats env fs0 loc secret).fs env.tempPath = none ∧
    fsLookup (getResticSnapshots env fs0 loc secret).fs env.tempPath = none ∧
    fsLookup (deleteResticSnapshot env fs0 loc secret id).fs env.tempPath = none ∧
    fsLookup (restoreResticSnapshot env fs0 loc secret id target).fs
      env.tempPath = none := by
  refine ⟨?_, ?_, ?_, ?_⟩
  · simp only [getResticStats]
    repeat' split
    all_goals first | exact hfresh | exact fsLookup_fsRemove _ _
  · simp only [getResticSnapshots]
    repeat' split
    all_goals first | exact hfresh | exact fsLookup_fsRemove _ _
  · simp only [deleteResticSnapshot]
    repeat' split
    all_goals first | exact hfresh | exact fsLookup_fsRemove _ _
  · simp only [restoreResticSnapshot]
    repeat' split
    all_goals first | exact hfresh | exact fsLookup_fsRemove _ _

/-- Witness for C1 at a concrete environment whose spawn fails. -/
theorem tempfile_removed_on_every_path_witness :
    fsLookup [] ("/tmp/pw1") = none ∧
    (fsLookup (getResticStats (Env.mk ("/tmp/pw1") true true (fun _ => none))
        [] ("/repo") ("pw")).fs ("/tmp/pw1") = none ∧
     fsLookup (getResticSnapshots (Env.mk ("/tmp/pw1") true true (fun _ => none))
        [] ("/repo") ("pw")).fs ("/tmp/pw1") = none ∧
     fsLookup (deleteResticSnapshot (Env.mk ("/tmp/pw1") true true (fun _ => none))
        [] ("/repo") ("pw") ("id1")).fs ("/tmp/pw1") = none ∧
     fsLookup (restoreResticSnapshot (Env.mk ("/tmp/pw1") true true (fun _ => none))
        [] ("/repo") ("pw") ("id1") ("/tgt")).fs ("/tmp/pw1") = none) :=
  ⟨rfl, tempfile_removed_on_every_path (Env.mk ("/tmp/pw1") true true (fun _ => none))
    [] ("/repo") ("pw") ("id1") ("/tgt") rfl⟩

/-- C2: in every reachable state of the interleaving model of the
handlers sharing the single repository session mutex, at most one task
is inside its tool invocation: two tasks simultaneously at the
invoking control point are the same task, so invocations never
overlap in execution time. -/
theorem invocations_never_overlap {s : SessionState} (h : SessionReachable s)
    (i j : Nat) (hi : s.phase i = Phase.invoking)
    (hj : s.phase j = Phase.invoking) : i = j := by
  have h1 := sessionInvariant h i (Or.inr (Or.inl hi))
  have h2 := sessionInvariant h j (Or.inr (Or.inl hj))
  rw [h1] at h2
  exact Option.some.inj h2

/-- Witness for C2: a concrete reachable state in which task 0 is
invoking. -/
theorem invocations_never_overlap_witness :
    SessionReachable
      ⟨some 0, setPhase (setPhase initialSession.phase 0 Phase.locked) 0
        Phase.invoking⟩ ∧
    (⟨some 0, setPhase (setPhase initialSession.phase 0 Phase.locked) 0
        Phase.invoking⟩ : SessionState).phase 0 = Phase.invoking ∧
    (0 : Nat) = 0 :=
  have h1 : SessionStep initialSession
      ⟨some 0, setPhase initialSession.phase 0 Phase.locked⟩ :=
    SessionStep.acquire initialSession 0 rfl rfl
  have h2 : SessionStep
      ⟨some 0, setPhase initialSession.phase 0 Phase.locked⟩
      ⟨some 0, setPhase (setPhase initialSession.phase 0 Phase.locked) 0
        Phase.invoking⟩ :=
    SessionStep.beginInvoke
      ⟨some 0, setPhase initialSession.phase 0 Phase.locked⟩ 0 rfl
  have hr : SessionReachable
      ⟨some 0, setPhase (setPhase initialSession.phase 0 Phase.locked) 0
        Phase.invoking⟩ :=
    SessionReachable.step (SessionReachable.step SessionReachable.init h1) h2
  ⟨hr, rfl, invocations_never_overlap hr 0 0 rfl rfl⟩

/-- C3: every POST /restore request whose target_dir is empty or
whitespace-only after trimming gets a 400 response with the exact
error body, and zero subprocess invocations occur for that request. -/
theorem restore_blank_target_rejected (env : Env) (fs0 : FileSystem)
    (config : RepositoryConfig) (req : RestoreRequest)
    (hblank : (rustTrim req.target_dir).isEmpty = true) :
    (restoreSnapshot env fs0 config req).response.status = 400 ∧
    (restoreSnapshot env fs0 config req).response.body =
      Json.obj [("error", Json.str ("Target directory is required"))] ∧
    (restoreSnapshot env fs0 config req).invocations = [] := by
  refine ⟨?_, ?_, ?_⟩ <;> simp [restoreSnapshot, hblank]

/-- Witness for C3 at a whitespace-only target directory. -/
theorem restore_blank_target_rejected_witness :
    (rustTrim ("   ")).isEmpty = true ∧
    ((restoreSnapshot (Env.mk ("/tmp/pw3") true true (fun _ => none)) []
        (RepositoryConfig.mk ("/repo") ("pw"))
        (RestoreRequest.mk ("abc") ("   "))).response.status = 400 ∧
     (restoreSnapshot (Env.mk ("/tmp/pw3") true true (fun _ => none)) []
        (RepositoryConfig.mk ("/repo") ("pw"))
        (RestoreRequest.mk ("abc") ("   "))).response.body =
       Json.obj [("error", Json.str ("Target directory is required"))] ∧
     (restoreSnapshot (Env.mk ("/tmp/pw3") true true (fun _ => none)) []
        (RepositoryConfig.mk ("/repo") ("pw"))
        (RestoreRequest.mk ("abc") ("   "))).invocations = []) :=
  ⟨rfl, restore_blank_target_rejected (Env.mk ("/tmp/pw3") true true (fun _ => none))
    [] (RepositoryConfig.mk ("/repo") ("pw"))
    (RestoreRequest.mk ("abc") ("   ")) rfl⟩

/-- C4 counterexample: the claim says the blank-target validation
failure is produced before the session guard is acquired, the guard
never being held while the 400 outcome is generated. In the source
(restore.rs:55-59) the handler acquires the configuration lock first
and only then checks the target directory: at this concrete blank
request the event trace is guard acquisition, then the 400 response,
then guard release — the guard is held while the caller-error outcome
is generated, refuting the claim. -/
theorem restore_validates_after_lock_cex :
    (restoreSnapshot (Env.mk ("/tmp/pw4") true true (fun _ => none)) []
        (RepositoryConfig.mk ("/repo") ("pw"))
        (RestoreRequest.mk ("abc") (""))).events =
      [Event.lockAcquire, Event.respond 400, Event.lockRelease] := rfl

/-- C4 (amended): for every POST /restore request with a blank
target_dir, the handler acquires the session guard first, produces the
caller-error outcome while holding the guard, and releases the guard
at scope exit, with no invocation in between. -/
theorem restore_blank_target_guard_held (env : Env) (fs0 : FileSystem)
    (config : RepositoryConfig) (req : RestoreRequest)
    (hblank : (rustTrim req.target_dir).isEmpty = true) :
    (restoreSnapshot env fs0 config req).events =
      [Event.lockAcquire, Event.respond 400, Event.lockRelease] := by
  simp [restoreSnapshot, hblank]

/-- Witness for the amended C4 at a concrete blank request. -/
theorem restore_blank_target_guard_held_witness :
    (rustTrim ("")).isEmpty = true ∧
    (restoreSnapshot (Env.mk ("/tmp/pw4b") true true (fun _ => none)) []
        (RepositoryConfig.mk ("/repo") ("pw"))
        (RestoreRequest.mk ("xyz") (""))).events =
      [Event.lockAcquire, Event.respond 400, Event.lockRelease] :=
  ⟨rfl, restore_blank_target_guard_held (Env.mk ("/tmp/pw4b") true true (fun _ => none))
    [] (RepositoryConfig.mk ("/repo") ("pw"))
    (RestoreRequest.mk ("xyz") ("")) rfl⟩

/-- C5: for every invocation result with a nonzero exit, on every
operation, classification yields a Failure whose message embeds the
lossily decoded stderr text verbatim after the fixed prefix. The
stdout bytes sout are universally quantified and do not occur in the
conclusion: stdout is never decoded or parsed in this case, even if it
contains valid JSON. -/
theorem nonzero_exit_stderr_verbatim (env : Env) (fs0 : FileSystem)
    (loc secret id target : String) (sout serr : Bytes)
    (hc : env.tempCreateOk = true) (hw : env.writeOk = true)
    (hs : ∀ argv, env.spawn argv = some (InvocationResult.mk false sout serr)) :
    (getResticStats env fs0 loc secret).result =
      .error ("Restic error: " ++ utf8Lossy serr) ∧
    (getResticSnapshots env fs0 loc secret).result =
      .error ("Restic error: " ++ utf8Lossy serr) ∧
    (deleteResticSnapshot env fs0 loc secret id).result =
      .error ("Restic error: " ++ utf8Lossy serr) ∧
    (restoreResticSnapshot env fs0 loc secret id target).result =
      .error ("Restic error: " ++ utf8Lossy serr) := by
  refine ⟨?_, ?_, ?_, ?_⟩ <;>
    simp [getResticStats, getResticSnapshots, deleteResticSnapshot,
      restoreResticSnapshot, hc, hw, hs]

/-- Witness for C5: the subprocess exits nonzero with stderr boom and
a stdout that is itself valid JSON; the stats outcome is still the
stderr-based failure. -/
theorem nonzero_exit_stderr_verbatim_witness :
    (∀ argv, (Env.mk ("/tmp/pw5") true true
        (fun _ => some (InvocationResult.mk false (strBytes ("[1, 2]"))
          (strBytes ("boom"))))).spawn argv =
      some (InvocationResult.mk false (strBytes ("[1, 2]")) (strBytes ("boom")))) ∧
    (getResticStats (Env.mk ("/tmp/pw5") true true
        (fun _ => some (InvocationResult.mk false (strBytes ("[1, 2]"))
          (strBytes ("boom"))))) [] ("/repo") ("pw")).result =
      .error ("Restic error: " ++ utf8Lossy (strBytes ("boom"))) :=
  ⟨fun _ => rfl,
   (nonzero_exit_stderr_verbatim (Env.mk ("/tmp/pw5") true true
      (fun _ => some (InvocationResult.mk false (strBytes ("[1, 2]"))
        (strBytes ("boom"))))) [] ("/repo") ("pw") ("id5") ("/tgt")
      (strBytes ("[1, 2]")) (strBytes ("boom")) rfl rfl (fun _ => rfl)).1⟩

/-- C6: for a successful exit on the JSON-expecting operations (stats,
snapshots), a non-UTF-8 stdout yields the Failure naming the UTF-8
decode failure, a UTF-8 stdout that is not valid JSON yields the
Failure naming the JSON parse failure, and the two messages are
distinguishable from each other. -/
theorem json_decode_parse_failures_distinguished (env : Env) (fs0 : FileSystem)
    (loc secret : String) (sout serr : Bytes)
    (hc : env.tempCreateOk = true) (hw : env.writeOk = true)
    (hs : ∀ argv, env.spawn argv = some (InvocationResult.mk true sout serr)) :
    (utf8Decode sout = none →
      (getResticStats env fs0 loc secret).result =
        .error ("Invalid UTF-8 sequence: invalid utf-8 data") ∧
      (getResticSnapshots env fs0 loc secret).result =
        .error ("Invalid UTF-8 sequence: invalid utf-8 data")) ∧
    (∀ txt, utf8Decode sout = some txt → parseJson txt = none →
      (getResticStats env fs0 loc secret).result =
        .error ("Failed to parse JSON: invalid JSON text") ∧
      (getResticSnapshots env fs0 loc secret).result =
        .error ("Failed to parse JSON: invalid JSON text")) ∧
    ("Invalid UTF-8 sequence: invalid utf-8 data" : String) ≠
      "Failed to parse JSON: invalid JSON text" := by
  refine ⟨fun hdec => ?_, fun txt hdec hp => ?_, by decide⟩
  · constructor <;>
      simp [getResticStats, getResticSnapshots, hc, hw, hs, hdec]
  · constructor <;>
      simp [getResticStats, getResticSnapshots, hc, hw, hs, hdec, hp]

/-- Witness for C6: one environment whose stdout is the invalid byte
0xFF, one whose stdout is the non-JSON text not-json; the stats
results carry the two distinguishable messages. -/
theorem json_decode_parse_failures_distinguished_witness :
    ((∀ argv, (Env.mk ("/tmp/pw6a") true true
        (fun _ => some (InvocationResult.mk true [0xFF] []))).spawn argv =
      some (InvocationResult.mk true [0xFF] [])) ∧
     utf8Decode [0xFF] = none ∧
     (getResticStats (Env.mk ("/tmp/pw6a") true true
        (fun _ => some (InvocationResult.mk true [0xFF] []))) []
        ("/repo") ("pw")).result =
       .error ("Invalid UTF-8 sequence: invalid utf-8 data")) ∧
    ((∀ argv, (Env.mk ("/tmp/pw6b") true true
        (fun _ => some (InvocationResult.mk true (strBytes ("not-json")) []))).spawn argv =
      some (InvocationResult.mk true (strBytes ("not-json")) [])) ∧
     utf8Decode (strBytes ("not-json")) = some ("not-json") ∧
     parseJson ("not-json") = none ∧
     (getResticStats (Env.mk ("/tmp/pw6b") true true
        (fun _ => some (InvocationResult.mk true (strBytes ("not-json")) []))) []
        ("/repo") ("pw")).result =
       .error ("Failed to parse JSON: invalid JSON text")) :=
  have hA := json_decode_parse_failures_distinguished
    (Env.mk ("/tmp/pw6a") true true
      (fun _ => some (InvocationResult.mk true [0xFF] [])))
    [] ("/repo") ("pw") [0xFF] [] rfl rfl (fun _ => rfl)
  have hB := json_decode_parse_failures_distinguished
    (Env.mk ("/tmp/pw6b") true true
      (fun _ => some (InvocationResult.mk true (strBytes ("not-json")) [])))
    [] ("/repo") ("pw") (strBytes ("not-json")) [] rfl rfl (fun _ => rfl)
  ⟨⟨fun _ => rfl, rfl, (hA.1 rfl).1⟩,
   ⟨fun _ => rfl, rfl, rfl, ((hB.2.1 ("not-json")) rfl rfl).1⟩⟩

/-- C7: once the credential file is created and written, each
operation attempts exactly one subprocess invocation, whose argument
vector is exactly the repository flag and location, the password-file
flag and credential path, the subcommand, and the operation-specific
arguments in order, with nothing else. -/
theorem argument_lists_exact (env : Env) (fs0 : FileSystem)
    (loc secret id target : String)
    (hc : env.tempCreateOk = true) (hw : env.writeOk = true) :
    (getResticStats env fs0 loc secret).invocations.map Prod.fst =
      [["restic", "-r", loc, "--password-file", env.tempPath,
        "stats", "--json"]] ∧
    (getResticSnapshots env fs0 loc secret).invocations.map Prod.fst =
      [["restic", "-r", loc, "--password-file", env.tempPath,
        "snapshots", "--json"]] ∧
    (deleteResticSnapshot env fs0 loc secret id).invocations.map Prod.fst =
      [["restic", "-r", loc, "--password-file", env.tempPath,
        "forget", id, "--prune"]] ∧
    (restoreResticSnapshot env fs0 loc secret id target).invocations.map Prod.fst =
      [["restic", "-r", loc, "--password-file", env.tempPath,
        "restore", id, "--target", target]] := by
  refine ⟨?_, ?_, ?_, ?_⟩
  · rw [stats_invocations_eq env fs0 loc secret hc hw]; rfl
  · rw [snapshots_invocations_eq env fs0 loc secret hc hw]; rfl
  · rw [delete_invocations_eq env fs0 loc secret id hc hw]; rfl
  · rw [restore_invocations_eq env fs0 loc secret id target hc hw]; rfl

/-- Witness for C7 at concrete configuration values. -/
theorem argument_lists_exact_witness :
    (Env.mk ("/tmp/pw7") true true (fun _ => none)).tempCreateOk = true ∧
    (getResticStats (Env.mk ("/tmp/pw7") true true (fun _ => none)) []
        ("/srv/repo") ("hunter2")).invocations.map Prod.fst =
      [["restic", "-r", "/srv/repo", "--password-file", "/tmp/pw7",
        "stats", "--json"]] ∧
    (restoreResticSnapshot (Env.mk ("/tmp/pw7") true true (fun _ => none)) []
        ("/srv/repo") ("hunter2") ("abc123") ("/restore/here")).invocations.map
        Prod.fst =
      [["restic", "-r", "/srv/repo", "--password-file", "/tmp/pw7",
        "restore", "abc123", "--target", "/restore/here"]] :=
  have h := argument_lists_exact (Env.mk ("/tmp/pw7") true true (fun _ => none))
    [] ("/srv/repo") ("hunter2") ("abc123") ("/restore/here") rfl rfl
  ⟨rfl, h.1, h.2.2.2⟩

/-- C8 counterexample: the claim says an empty snapshot id is rejected
locally. In the source neither handler validates the snapshot id: at
this concrete restore request with snapshot_id empty and a valid
target directory, a subprocess invocation occurs with the empty id in
the argument vector and the request succeeds with 200 — no local
rejection of the empty id takes place. -/
theorem empty_snapshot_id_not_rejected_cex :
    (restoreSnapshot (Env.mk ("/tmp/pw8") true true
        (fun _ => some (InvocationResult.mk true [] []))) []
        (RepositoryConfig.mk ("/repo") ("pw"))
        (RestoreRequest.mk ("") ("/tgt"))).invocations.map Prod.fst =
      [["restic", "-r", "/repo", "--password-file", "/tmp/pw8",
        "restore", "", "--target", "/tgt"]] ∧
    (restoreSnapshot (Env.mk ("/tmp/pw8") true true
        (fun _ => some (InvocationResult.mk true [] []))) []
        (RepositoryConfig.mk ("/repo") ("pw"))
        (RestoreRequest.mk ("") ("/tgt"))).response.status = 200 :=
  ⟨rfl, rfl⟩

/-- C8 (amended): for delete and restore the caller-supplied snapshot
id receives no local validation at all — every snapshot id, the empty
string included, is passed to the external tool unmodified in the
argument vector. -/
theorem snapshot_id_passed_unmodified (env : Env) (fs0 : FileSystem)
    (config : RepositoryConfig) (id target : String)
    (hc : env.tempCreateOk = true) (hw : env.writeOk = true)
    (htg : (rustTrim target).isEmpty = false) :
    (deleteSnapshot env fs0 config id).invocations.map Prod.fst =
      [["restic", "-r", config.path, "--password-file", env.tempPath,
        "forget", id, "--prune"]] ∧
    (restoreSnapshot env fs0 config
        (RestoreRequest.mk id target)).invocations.map Prod.fst =
      [["restic", "-r", config.path, "--password-file", env.tempPath,
        "restore", id, "--target", target]] := by
  constructor
  · simp only [deleteSnapshot]
    split <;>
      simp [delete_invocations_eq env fs0 config.path config.password id hc hw]
  · simp only [restoreSnapshot, htg]
    repeat' split
    all_goals
      simp_all [restore_invocations_eq env fs0 config.path config.password id
        target hc hw]

/-- Witness for the amended C8 at the empty snapshot id. -/
theorem snapshot_id_passed_unmodified_witness :
    (rustTrim ("/tgt8")).isEmpty = false ∧
    (deleteSnapshot (Env.mk ("/tmp/pw8b") true true (fun _ => none)) []
        (RepositoryConfig.mk ("/repo") ("pw")) ("")).invocations.map Prod.fst =
      [["restic", "-r", "/repo", "--password-file", "/tmp/pw8b",
        "forget", "", "--prune"]] ∧
    (restoreSnapshot (Env.mk ("/tmp/pw8b") true true (fun _ => none)) []
        (RepositoryConfig.mk ("/repo") ("pw"))
        (RestoreRequest.mk ("") ("/tgt8"))).invocations.map Prod.fst =
      [["restic", "-r", "/repo", "--password-file", "/tmp/pw8b",
        "restore", "", "--target", "/tgt8"]] :=
  have h := snapshot_id_passed_unmodified
    (Env.mk ("/tmp/pw8b") true true (fun _ => none)) []
    (RepositoryConfig.mk ("/repo") ("pw")) ("") ("/tgt8") rfl rfl rfl
  ⟨rfl, h.1, h.2⟩

/-- C9: for every secret string, at the moment each operation spawns
its subprocess, the credential file content is exactly the UTF-8 bytes
of the secret — nothing prepended, appended or transformed. -/
theorem credential_file_content_exact (env : Env) (fs0 : FileSystem)
    (loc secret id target : String)
    (hc : env.tempCreateOk = true) (hw : env.writeOk = true) :
    (∀ fsAt ∈ (getResticStats env fs0 loc secret).invocations.map Prod.snd,
      fsLookup fsAt env.tempPath = some (strBytes secret)) ∧
    (∀ fsAt ∈ (getResticSnapshots env fs0 loc secret).invocations.map Prod.snd,
      fsLookup fsAt env.tempPath = some (strBytes secret)) ∧
    (∀ fsAt ∈ (deleteResticSnapshot env fs0 loc secret id).invocations.map
        Prod.snd,
      fsLookup fsAt env.tempPath = some (strBytes secret)) ∧
    (∀ fsAt ∈ (restoreResticSnapshot env fs0 loc secret id
        target).invocations.map Prod.snd,
      fsLookup fsAt env.tempPath = some (strBytes secret)) := by
  refine ⟨?_, ?_, ?_, ?_⟩ <;> intro fsAt h
  · rw [stats_invocations_eq env fs0 loc secret hc hw] at h
    simp at h
    rw [h]
    exact fsLookup_fsWrite _ _ _
  · rw [snapshots_invocations_eq env fs0 loc secret hc hw] at h
    simp at h
    rw [h]
    exact fsLookup_fsWrite _ _ _
  · rw [delete_invocations_eq env fs0 loc secret id hc hw] at h
    simp at h
    rw [h]
    exact fsLookup_fsWrite _ _ _
  · rw [restore_invocations_eq env fs0 loc secret id target hc hw] at h
    simp at h
    rw [h]
    exact fsLookup_fsWrite _ _ _

/-- Witness for C9 at a concrete secret. -/
theorem credential_file_content_exact_witness :
    (Env.mk ("/tmp/pw9") true true (fun _ => none)).writeOk = true ∧
    (∀ fsAt ∈ (getResticStats (Env.mk ("/tmp/pw9") true true (fun _ => none))
        [] ("/repo") ("s3cret")).invocations.map Prod.snd,
      fsLookup fsAt ("/tmp/pw9") = some (strBytes ("s3cret"))) :=
  have h := credential_file_content_exact
    (Env.mk ("/tmp/pw9") true true (fun _ => none)) [] ("/repo") ("s3cret")
    ("id9") ("/tgt9") rfl rfl
  ⟨rfl, h.1⟩

/-- C10: classification of a nonzero-exit result is total for every
stderr byte sequence: whatever bytes stderr holds — valid UTF-8 or
not — every operation produces a Failure message, equal to the fixed
prefix followed by the lossy (replacement-character) decoding of
stderr, and the classifier itself never fails. -/
theorem stderr_classification_total (env : Env) (fs0 : FileSystem)
    (loc secret id target : String) (sout serr : Bytes)
    (hc : env.tempCreateOk = true) (hw : env.writeOk = true)
    (hs : ∀ argv, env.spawn argv = some (InvocationResult.mk false sout serr)) :
    ∃ msg : String,
      msg = "Restic error: " ++ utf8Lossy serr ∧
      (getResticStats env fs0 loc secret).result = .error msg ∧
      (getResticSnapshots env fs0 loc secret).result = .error msg ∧
      (deleteResticSnapshot env fs0 loc secret id).result = .error msg ∧
      (restoreResticSnapshot env fs0 loc secret id target).result =
        .error msg := by
  refine ⟨_, rfl, ?_, ?_, ?_, ?_⟩ <;>
    simp [getResticStats, getResticSnapshots, deleteResticSnapshot,
      restoreResticSnapshot, hc, hw, hs]

/-- Witness for C10 at a stderr that is not valid UTF-8: the byte 0xFF
followed by the letter A decodes lossily to the replacement character
and A, and classification still yields that Failure message. -/
theorem stderr_classification_total_witness :
    utf8Lossy [0xFF, 0x41] = "�A" ∧
    (∀ argv, (Env.mk ("/tmp/pw10") true true
        (fun _ => some (InvocationResult.mk false [] [0xFF, 0x41]))).spawn argv =
      some (InvocationResult.mk false [] [0xFF, 0x41])) ∧
    (∃ msg : String,
      msg = "Restic error: " ++ utf8Lossy [0xFF, 0x41] ∧
      (getResticStats (Env.mk ("/tmp/pw10") true true
          (fun _ => some (InvocationResult.mk false [] [0xFF, 0x41]))) []
          ("/repo") ("pw")).result = .error msg ∧
      (getResticSnapshots (Env.mk ("/tmp/pw10") true true
          (fun _ => some (InvocationResult.mk false [] [0xFF, 0x41]))) []
          ("/repo") ("pw")).result = .error msg ∧
      (deleteResticSnapshot (Env.mk ("/tmp/pw10") true true
          (fun _ => some (InvocationResult.mk false [] [0xFF, 0x41]))) []
          ("/repo") ("pw") ("id10")).result = .error msg ∧
      (restoreResticSnapshot (Env.mk ("/tmp/pw10") true true
          (fun _ => some (InvocationResult.mk false [] [0xFF, 0x41]))) []
          ("/repo") ("pw") ("id10") ("/tgt10")).result = .error msg) :=
  ⟨by decide, fun _ => rfl,
   stderr_classification_total (Env.mk ("/tmp/pw10") true true
     (fun _ => some (InvocationResult.mk false [] [0xFF, 0x41]))) []
     ("/repo") ("pw") ("id10") ("/tgt10") [] [0xFF, 0x41] rfl rfl
     (fun _ => rfl)⟩

end ResticApi
